import Mathlib

/-!
Verification of the AI-Overlay gateway backend against its specification.

The development shallowly embeds the JavaScript source:
* the tool registry (`ToolRegistry` in the source): registration, the
  result cache keyed by `name:stringified-args`, and `executeCall`;
* the SQLite persistence layer (`ConversationDatabase`) as a pure record
  of conversation and message rows, with the schema CHECK constraint on
  message roles and the foreign-key / primary-key constraints as
  `Except` failures;
* the `ConversationStore` (in-memory cache in front of the database);
* the HTTP route handlers for chat streaming, refresh, and conversation
  deletion / retrieval, modelled as pure functions from request data and
  an abstract provider outcome to a status code, a body discriminator, a
  list of server-sent events, and the successor store state.

Throwing JavaScript code is modelled with `Except String`; a `.error`
value means the exception propagates to the caller.  Timestamps are
natural numbers standing for `Date.now()` milliseconds; a handler or
database call is treated as instantaneous, so one `now` parameter serves
one JavaScript statement sequence.
-/

namespace AIOverlay

/-- Association-list lookup, mirroring `Map.get`. -/
def alookup {α : Type} : List (String × α) → String → Option α
  | [], _ => none
  | (k, v) :: rest, key => if k = key then some v else alookup rest key

/-- Association-list insert-or-replace, mirroring `Map.set`. -/
def ainsert {α : Type} : List (String × α) → String → α → List (String × α)
  | [], key, v => [(key, v)]
  | (k, w) :: rest, key, v =>
      if k = key then (key, v) :: rest else (k, w) :: ainsert rest key v

/-- Association-list removal, mirroring `Map.delete` (the `Bool` result of
`Map.delete` is recovered from `alookup` by callers). -/
def aremove {α : Type} (l : List (String × α)) (key : String) : List (String × α) :=
  l.filter (fun p => p.1 ≠ key)

/-! ## Tool registry (`ToolRegistry`, src/unnamed/part_004)

A tool definition carries `name`, `description`, `schema` (the JSON
schema as an opaque string), the `handler` and `metadata.cache_ttl`.
The handler argument object is represented by its canonical JSON
string (the registry cache key uses stringified args, so two
identical argument objects have the same representative); the handler
result type is a parameter `ρ`, and a throwing handler is `.error`. -/

structure ToolDef (ρ : Type) where
  name : String
  description : String
  schema : String
  handler : String → Except String ρ
  cache_ttl : Option Nat

/-- One registry cache slot: `{ at: Date.now(), data: result }`. -/
structure CacheSlot (ρ : Type) where
  atMs : Nat
  data : ρ
deriving DecidableEq

/-- The registry state: the `tools` map, the compiled-validator map
(retained as schema text; Ajv compilation has no registry-visible
effect) and the result `cache`. -/
structure Registry (ρ : Type) where
  tools : List (String × ToolDef ρ)
  validators : List (String × String)
  cache : List (String × CacheSlot ρ)

/-- Source helper cacheKey: the key is the tool name, a colon, and the stringified argument object. -/
def cacheKey (name args : String) : String := name ++ ":" ++ args

/-- Source `register(name, definition)`: throws only when the
name or the definition is missing (falsy); otherwise `Map.set` on both
`tools` and `validators`, replacing silently on reuse.  The stored
definition is `{ ...definition, name }`. -/
def ToolRegistry.register {ρ : Type} (reg : Registry ρ) (name : String)
    (defn : Option (ToolDef ρ)) : Except String (Registry ρ) :=
  match defn with
  | none => .error "Tool name and definition required"
  | some d =>
      if name = "" then .error "Tool name and definition required"
      else .ok { reg with
        tools := ainsert reg.tools name { d with name := name },
        validators := ainsert reg.validators name d.schema }

/-- The cache probe of `executeCall`: under `if (ttl)` (truthy, so a
defined non-zero `cache_ttl`), a stored entry is fresh when
`Date.now() - hit.at < ttl`. -/
def freshHit {ρ : Type} (reg : Registry ρ) (tool : ToolDef ρ) (key : String)
    (now : Nat) : Option ρ :=
  match tool.cache_ttl with
  | none => none
  | some ttl =>
      if ttl = 0 then none
      else
        match alookup reg.cache key with
        | none => none
        | some slot => if now - slot.atMs < ttl then some slot.data else none

/-- Outcome of one `executeCall`: the value returned (or exception
propagated) to the caller, whether the tool handler ran, and the
successor registry state. -/
structure ExecOutcome (ρ : Type) where
  result : Except String ρ
  handlerInvoked : Bool
  reg : Registry ρ

/-- Source `executeCall(name, args, context)`: unknown tool
throws; a fresh cache hit returns the cached data without invoking the
handler; otherwise the handler runs — on success the result is cached
when `cache_ttl` is truthy and returned, on failure the error is logged
and re-thrown (`throw error`) with the cache untouched. -/
def ToolRegistry.executeCall {ρ : Type} (reg : Registry ρ) (name args : String)
    (now : Nat) : ExecOutcome ρ :=
  match alookup reg.tools name with
  | none => ⟨.error ("Unknown tool: " ++ name), false, reg⟩
  | some tool =>
      let key := cacheKey name args
      match freshHit reg tool key now with
      | some data => ⟨.ok data, false, reg⟩
      | none =>
          match tool.handler args with
          | .ok r =>
              let cacheOn :=
                match tool.cache_ttl with
                | some ttl => ttl != 0
                | none => false
              let reg' :=
                if cacheOn then { reg with cache := ainsert reg.cache key ⟨now, r⟩ }
                else reg
              ⟨.ok r, true, reg'⟩
          | .error e => ⟨.error e, true, reg⟩

/-! ## Persistence layer (`ConversationDatabase`, src/backend/src/lib/database.js)

The SQLite tables are embedded as lists of rows in insertion (rowid)
order.  The `messages` table carries the schema constraint
CHECK role IN (user, assistant, system) and a foreign key to
`conversations` with `ON DELETE CASCADE`; a violated constraint makes
the prepared-statement `run` throw, modelled as `.error`.  `Date.now()`
timestamps are monotone across statements, so `ORDER BY created_at ASC`
agrees with insertion order and `getMessages` is a filter. -/

structure DbConv where
  id : String
  created_at : Nat
  updated_at : Nat
deriving DecidableEq

structure DbMsg where
  conversation_id : String
  role : String
  content : String
  created_at : Nat
  model : Option String
  provider : Option String
  total_tokens : Nat
deriving DecidableEq

structure Db where
  conversations : List DbConv
  messages : List DbMsg
deriving DecidableEq

/-- The role whitelist of the `messages` table CHECK constraint. -/
def allowedRoles : List String := ["user", "assistant", "system"]

def Db.hasConversation (db : Db) (cid : String) : Bool :=
  db.conversations.any (fun c => c.id == cid)

/-- Source `createConversation(id)` : INSERT INTO conversations; the PRIMARY
KEY makes a duplicate id throw. -/
def Db.createConversation (db : Db) (cid : String) (now : Nat) :
    Except String Db :=
  if db.hasConversation cid then .error "UNIQUE constraint failed: conversations.id"
  else .ok { db with conversations := db.conversations ++ [⟨cid, now, now⟩] }

/-- Source `updateConversationMeta` / `updateConversationTimestamp`: bump the
field updated_at of the conversation row. -/
def Db.touchConversation (db : Db) (cid : String) (now : Nat) : Db :=
  { db with conversations :=
      db.conversations.map (fun c =>
        if c.id == cid then { c with updated_at := now } else c) }

/-- The optional metadata of a message (`details` in the source): model,
provider, usage total, and the tool fields recognised by the store. -/
structure Details where
  model : Option String
  provider : Option String
  usage : Option Nat
  tool_calls : Option String
  tool_name : Option String
  tool_call_id : Option String
deriving DecidableEq

def noDetails : Details := ⟨none, none, none, none, none, none⟩

/-- Source `addMessage(conversationId, role, content, details)` : INSERT INTO
messages then bump the conversation timestamp.  The INSERT throws when
the role CHECK or the conversation foreign key is violated. -/
def Db.addMessage (db : Db) (cid role content : String) (det : Details)
    (now : Nat) : Except String Db :=
  if ¬ allowedRoles.contains role then
    .error "CHECK constraint failed: messages.role"
  else if ¬ db.hasConversation cid then
    .error "FOREIGN KEY constraint failed"
  else
    .ok (Db.touchConversation
      { db with messages := db.messages ++
          [⟨cid, role, content, now, det.model, det.provider, det.usage.getD 0⟩] }
      cid now)

/-- Source `getConversationMessages` : SELECT the messages of the conversation in
`created_at` (= insertion) order. -/
def Db.getConversationMessages (db : Db) (cid : String) : List DbMsg :=
  db.messages.filter (fun m => m.conversation_id == cid)

def Db.findConversation (db : Db) (cid : String) : Option DbConv :=
  db.conversations.find? (fun c => c.id == cid)

/-- One entry of the standardized transcript (`chatHistory`). -/
structure TEntry where
  role : String
  content : String
  atMs : Nat
  model : Option String
  provider : Option String
  usage_total : Option Nat
  tool_calls : Option String
  tool_name : Option String
  tool_call_id : Option String
deriving DecidableEq

structure Transcript where
  chatId : String
  createdAt : Nat
  updatedAt : Nat
  chatHistory : List TEntry
deriving DecidableEq

/-- Source `getStandardizedConversation` : none for an absent id; otherwise the
transcript built from the rows, attaching usage only when the stored
total is positive.  Database rows carry no tool fields. -/
def Db.getStandardizedConversation (db : Db) (cid : String) : Option Transcript :=
  match db.findConversation cid with
  | none => none
  | some conv =>
      some { chatId := conv.id, createdAt := conv.created_at,
             updatedAt := conv.updated_at,
             chatHistory := (db.getConversationMessages cid).map (fun m =>
               ⟨m.role, m.content, m.created_at, m.model, m.provider,
                if m.total_tokens > 0 then some m.total_tokens else none,
                none, none, none⟩) }

/-- Source `deleteConversationById` : DELETE with `ON DELETE CASCADE` on the
messages; reports whether a row was removed. -/
def Db.deleteConversationById (db : Db) (cid : String) : Bool × Db :=
  (db.hasConversation cid,
   { conversations := db.conversations.filter (fun c => c.id != cid),
     messages := db.messages.filter (fun m => m.conversation_id != cid) })

/-- Drop the last list element satisfying `p`, keeping the rest. -/
def removeFirstWhere {α : Type} : List α → (α → Bool) → List α
  | [], _ => []
  | x :: xs, p => if p x then xs else x :: removeFirstWhere xs p

/-- Source `deleteLastMessage` : DELETE the row with MAX(id) among the
messages of the conversation (the most recently inserted one); on a change,
bump the conversation timestamp. -/
def Db.deleteLastMessage (db : Db) (cid : String) (now : Nat) : Bool × Db :=
  let changed := db.messages.any (fun m => m.conversation_id == cid)
  let db' := { db with messages :=
      (removeFirstWhere db.messages.reverse
        (fun m => m.conversation_id == cid)).reverse }
  if changed then (true, Db.touchConversation db' cid now) else (false, db)

/-! ## Conversation store (`ConversationStore`,
src/backend/src/lib/conversationStore.js)

The in-memory cache maps a conversation id to raw `(role, content)`
messages, an `updatedAt` stamp and the standardized transcript.  The
database write of `appendMessage` sits in a `try/catch` whose failure
is only logged; the environmental possibility that SQLite itself fails
(disk, I/O) is injected through the `dbWriteFails` flag — when set, the
`this.db.addMessage` call throws and the catch swallows it. -/

structure CacheConvo where
  messages : List (String × String)
  updatedAt : Nat
  transcript : Transcript
deriving DecidableEq

structure Store where
  cache : List (String × CacheConvo)
  db : Db
deriving DecidableEq

/-- Source `_loadConversationToCache` : seed the cache entry from a
standardized conversation. -/
def Store.loadConversationToCache (s : Store) (cid : String) (t : Transcript) :
    Store :=
  { s with
      cache := ainsert s.cache cid
        ⟨t.chatHistory.map (fun e => (e.role, e.content)), t.updatedAt, t⟩ }

/-- Source `appendMessage(conversationId, role, content, details)` : write to
the database first (failure caught and logged, then execution
continues); then update the cache entry, lazily rehydrating an absent
one from the database; `true` exactly when a cache entry was updated or
rehydrated. -/
def Store.appendMessage (s : Store) (cid role content : String) (det : Details)
    (now : Nat) (dbWriteFails : Bool) : Bool × Store :=
  let db' :=
    if dbWriteFails then s.db
    else
      match s.db.addMessage cid role content det now with
      | .ok d => d
      | .error _ => s.db
  match alookup s.cache cid with
  | none =>
      match db'.getStandardizedConversation cid with
      | some t => (true, Store.loadConversationToCache { s with db := db' } cid t)
      | none => (false, { s with db := db' })
  | some convo =>
      let entry : TEntry :=
        ⟨role, content, now, det.model, det.provider, det.usage,
         det.tool_calls, det.tool_name, det.tool_call_id⟩
      let convo' : CacheConvo :=
        ⟨convo.messages ++ [(role, content)], now,
         { convo.transcript with
             chatHistory := convo.transcript.chatHistory ++ [entry],
             updatedAt := now }⟩
      (true, { s with db := db', cache := ainsert s.cache cid convo' })

/-- Source `getMessages` : the cached raw messages, else the database rows
mapped to `(role, content)` (an unknown id yields the empty list). -/
def Store.getMessages (s : Store) (cid : String) : List (String × String) :=
  match alookup s.cache cid with
  | some convo => convo.messages
  | none => (s.db.getConversationMessages cid).map (fun m => (m.role, m.content))

/-- Source `getConversation` : cached transcript, else the standardized
conversation from the database. -/
def Store.getConversation (s : Store) (cid : String) : Option Transcript :=
  match alookup s.cache cid with
  | some convo => some convo.transcript
  | none => s.db.getStandardizedConversation cid

/-- Source `createConversation` seeded with the generated id: create the
database row and the empty cache entry.  Generated ids are fresh by
construction, so the duplicate-key branch (which would throw in the
source) keeps the state unchanged here. -/
def Store.createConversationId (s : Store) (cid : String) (now : Nat) : Store :=
  match s.db.createConversation cid now with
  | .error _ => s
  | .ok db' =>
      { db := db',
        cache := ainsert s.cache cid ⟨[], now, ⟨cid, now, now, []⟩⟩ }

/-- Source `delete(conversationId)` : delete the database rows (errors only
logged), then `Map.delete` on the cache — the returned flag comes from the
cache. -/
def Store.delete (s : Store) (cid : String) : Bool × Store :=
  let db' := (s.db.deleteConversationById cid).2
  ((alookup s.cache cid).isSome, { cache := aremove s.cache cid, db := db' })

/-- Source `removeLastMessage` : pop the last database row; when both a cache
entry exists and a row was removed, pop the cached message and
transcript entry as well. -/
def Store.removeLastMessage (s : Store) (cid : String) (now : Nat) :
    Bool × Store :=
  let r := s.db.deleteLastMessage cid now
  match alookup s.cache cid with
  | some convo =>
      if r.1 then
        let convo' : CacheConvo :=
          ⟨convo.messages.dropLast, now,
           { convo.transcript with
               chatHistory := convo.transcript.chatHistory.dropLast }⟩
        (r.1, { cache := ainsert s.cache cid convo', db := r.2 })
      else (r.1, { s with db := r.2 })
  | none => (r.1, { s with db := r.2 })

/-! ## Chat routes (src/unnamed/part_002) and conversation routes
(src/backend/src/routes/conversations.js)

History entries reaching `prepareMessages` are `(role, content)` pairs
as produced by `Store.getMessages`.  A prepared message is either a
standard chat message `{role, content}` (OpenAI / Grok) or a Gemini
content `{role, parts:[{text}]}`. -/

inductive PMsg
  | chat (role content : String)
  | gem (role text : String)
deriving DecidableEq

/-- Source `getProviderForModel`, verbatim. -/
def GEMINI_SUPPORTED_MODELS : List String := ["gemini-2.5-pro", "gemini-2.5-flash"]

def GROK_SUPPORTED_MODELS : List String := ["grok-4"]

def getProviderForModel (model : String) : String :=
  if GEMINI_SUPPORTED_MODELS.contains model || model.startsWith "gemini-2.5" then
    "gemini"
  else if GROK_SUPPORTED_MODELS.contains model || model == "grok-4" then "grok"
  else "openai"

/-- Source `prepareMessages(history, provider)`: an optional
system-prompt message first (Gemini receives it as a user content, the
others as a `system` role), then for Gemini only the user/assistant
entries mapped to Gemini contents (`assistant` becomes `model`), and
for every other provider the whole history verbatim. -/
def prepareMessages (history : List (String × String)) (provider : String)
    (systemPrompt : String) : List PMsg :=
  let sys : List PMsg :=
    if systemPrompt = "" then []
    else if provider = "gemini" then [.gem "user" systemPrompt]
    else [.chat "system" systemPrompt]
  if provider = "gemini" then
    sys ++ (history.filter (fun m => m.1 == "user" || m.1 == "assistant")).map
      (fun m => .gem (if m.1 == "assistant" then "model" else "user") m.2)
  else
    sys ++ history.map (fun m => .chat m.1 m.2)

/-- Bodies returned by the conversation routes. -/
inductive RouteBody
  | errorBody (msg : String)
  | deleted (cid : String)
  | conversationBody (cid : String) (t : Transcript)
deriving DecidableEq

/-- Source `DELETE /v1/conversations/:id` : run `store.delete`, then 404 with
an error body saying Conversation not found when the store reported the id
absent, else `{conversationId, deleted: true}`. -/
def deleteConversationRoute (s : Store) (cid : String) :
    (Nat × RouteBody) × Store :=
  let r := Store.delete s cid
  if r.1 then ((200, .deleted cid), r.2)
  else ((404, .errorBody "Conversation not found"), r.2)

/-- Source `GET /v1/conversations/:id` : 404 with
an error body saying Conversation not found when the store has no transcript. -/
def getConversationRoute (s : Store) (cid : String) : Nat × RouteBody :=
  match Store.getConversation s cid with
  | none => (404, .errorBody "Conversation not found")
  | some t => (200, .conversationBody cid t)

/-- Source `POST /v1/chat/refresh` up to the point where the event stream
opens: the 400 branches and the only mutation (removing a trailing
assistant message) of the handler lines 438-457. -/
inductive RefreshOutcome
  | badRequest (msg : String)
  | proceed (history : List (String × String))
deriving DecidableEq

def refreshDecision (s : Store) (conversationId : Option String) (now : Nat) :
    RefreshOutcome × Store :=
  match conversationId with
  | none => (.badRequest "Missing conversationId", s)
  | some cid =>
      let history0 := Store.getMessages s cid
      let lastIsAssistant :=
        match history0.getLast? with
        | some m => m.1 == "assistant"
        | none => false
      let s1 := if lastIsAssistant then (Store.removeLastMessage s cid now).2 else s
      let history := Store.getMessages s1 cid
      match history.getLast? with
      | none => (.badRequest "No user message to refresh", s1)
      | some m =>
          if m.1 == "user" then (.proceed history, s1)
          else (.badRequest "No user message to refresh", s1)

/-- The events written on the `text/event-stream` channel. -/
inductive SSEEvent
  | initEv (cid model : String)
  | tokenEv (t : String)
  | doneEv (cid model text : String)
  | errorEv (e : String)
deriving DecidableEq

structure StreamResponse where
  status : Nat
  events : List SSEEvent
deriving DecidableEq

/-- Source `GET /v1/chat/stream` : a missing/empty `message` returns a plain
400 before the stream opens; otherwise the SSE headers go out (HTTP
status 200 from that point on), `init` is sent, and the provider call
either yields text chunks forwarded as `token` events followed by
`done` (with the assistant message appended to the store), or throws —
caught by the handler, which writes a terminal `error` event on the
already-open 200 stream.  The provider interaction is abstracted by the
`chunks` delivered before the outcome and the optional failure. -/
def chatStreamRoute (s : Store) (message : String)
    (conversationId : Option String) (regenerate : Bool) (model : String)
    (freshId : String) (chunks : List String) (providerFailure : Option String)
    (now : Nat) : StreamResponse × Store :=
  if message = "" then (⟨400, []⟩, s)
  else
    let cid := match conversationId with
      | some c => c
      | none => freshId
    let s1 := match conversationId with
      | some _ => s
      | none => Store.createConversationId s freshId now
    let s2 :=
      if regenerate then s1
      else (Store.appendMessage s1 cid "user" message noDetails now false).2
    match providerFailure with
    | some e =>
        (⟨200, SSEEvent.initEv cid model :: chunks.map SSEEvent.tokenEv
            ++ [SSEEvent.errorEv e]⟩, s2)
    | none =>
        let text := String.join chunks
        let provider := getProviderForModel model
        let s3 := (Store.appendMessage s2 cid "assistant" text
          ⟨some model, some provider, none, none, none, none⟩ now false).2
        (⟨200, SSEEvent.initEv cid model :: chunks.map SSEEvent.tokenEv
            ++ [SSEEvent.doneEv cid model text]⟩, s3)

/-! ## Supporting lemmas -/

theorem alookup_ainsert_self {α : Type} (l : List (String × α)) (k : String)
    (v : α) : alookup (ainsert l k v) k = some v := by
  induction l with
  | nil => simp [ainsert, alookup]
  | cons p rest ih =>
      obtain ⟨a, b⟩ := p
      by_cases h : a = k
      · simp [ainsert, h, alookup]
      · simp [ainsert, h, alookup, ih]

theorem alookup_aremove_self {α : Type} (l : List (String × α)) (k : String) :
    alookup (aremove l k) k = none := by
  induction l with
  | nil => rfl
  | cons p rest ih =>
      obtain ⟨a, b⟩ := p
      by_cases h : a = k
      · simpa [aremove, h] using ih
      · simpa [aremove, alookup, h] using ih

theorem findConversation_delete (db : Db) (cid : String) :
    ((db.deleteConversationById cid).2).findConversation cid = none := by
  unfold Db.deleteConversationById Db.findConversation
  rw [List.find?_eq_none]
  intro c hc
  have hne : c.id ≠ cid := by
    have := (List.mem_filter.mp hc).2
    simpa [bne] using this
  simp [hne]

theorem hasConversation_delete (db : Db) (cid : String) :
    ((db.deleteConversationById cid).2).hasConversation cid = false := by
  unfold Db.deleteConversationById Db.hasConversation
  rw [List.any_eq_false]
  intro c hc
  have hne : c.id ≠ cid := by
    have := (List.mem_filter.mp hc).2
    simpa [bne] using this
  simp [hne]

theorem freshHit_cache_miss {ρ : Type} (reg : Registry ρ) (tool : ToolDef ρ)
    (key : String) (now : Nat) (h : alookup reg.cache key = none) :
    freshHit reg tool key now = none := by
  unfold freshHit
  cases tool.cache_ttl with
  | none => rfl
  | some ttl =>
      by_cases ht : ttl = 0 <;> simp [ht, h]

theorem appendMessage_snd_db (s : Store) (cid role content : String)
    (det : Details) (now : Nat) (fails : Bool) :
    ((Store.appendMessage s cid role content det now fails).2).db =
      (if fails then s.db
       else
         match s.db.addMessage cid role content det now with
         | .ok d => d
         | .error _ => s.db) := by
  unfold Store.appendMessage
  cases halk : alookup s.cache cid with
  | none =>
      cases hg : Db.getStandardizedConversation
          (if fails then s.db
           else
             match s.db.addMessage cid role content det now with
             | .ok d => d
             | .error _ => s.db) cid with
      | none => simp [halk, hg]
      | some t => simp [halk, hg, Store.loadConversationToCache]
  | some convo => simp [halk]

theorem touchConversation_messages (db : Db) (cid : String) (now : Nat) :
    (Db.touchConversation db cid now).messages = db.messages := rfl

/-! ## Concrete fixtures

Small registry and store states used by witnesses and counterexamples.
The handler result type is instantiated with `Nat`. -/

/-- A tool whose handler always throws, without a cache TTL. -/
def toolThrow : ToolDef Nat := ⟨"t", "throws", "{}", fun _ => .error "boom", none⟩

def regThrow : Registry Nat := ⟨[("t", toolThrow)], [("t", "{}")], []⟩

/-- A tool whose handler always throws, with `cache_ttl` 300000 (the
TTL of the `web_search` tool in the source). -/
def toolThrowTtl : ToolDef Nat :=
  ⟨"ws", "throws", "{}", fun _ => .error "boom", some 300000⟩

def regThrowTtl : Registry Nat := ⟨[("ws", toolThrowTtl)], [("ws", "{}")], []⟩

/-- A tool whose handler succeeds with 42, with `cache_ttl` 100. -/
def toolCached : ToolDef Nat := ⟨"w", "cached", "{}", fun _ => .ok 42, some 100⟩

def regCached : Registry Nat := ⟨[("w", toolCached)], [("w", "{}")], []⟩

def defFirst : ToolDef Nat := ⟨"t", "first", "schemaA", fun _ => .ok 1, none⟩

def defSecond : ToolDef Nat := ⟨"t", "second", "schemaB", fun _ => .ok 2, none⟩

/-- The registry after `register("t", defFirst)` on an empty registry. -/
def regOne : Registry Nat :=
  ⟨[("t", { defFirst with name := "t" })], [("t", "schemaA")], []⟩

/-- A store holding one empty conversation `c` in both layers. -/
def dbC : Db := ⟨[⟨"c", 1, 1⟩], []⟩

def storeC : Store := ⟨[("c", ⟨[], 1, ⟨"c", 1, 1, []⟩⟩)], dbC⟩

/-- A store whose conversation `c` holds a single user message. -/
def dbUser : Db := ⟨[⟨"c", 1, 2⟩], [⟨"c", "user", "hi", 2, none, none, 0⟩]⟩

def storeUser : Store :=
  ⟨[("c", ⟨[("user", "hi")], 2,
      ⟨"c", 1, 2, [⟨"user", "hi", 2, none, none, none, none, none, none⟩]⟩⟩)],
   dbUser⟩

/-- A store whose conversation `c` ends in a system message. -/
def dbSys : Db :=
  ⟨[⟨"c", 1, 3⟩],
   [⟨"c", "user", "hi", 2, none, none, 0⟩, ⟨"c", "system", "note", 3, none, none, 0⟩]⟩

def storeSys : Store :=
  ⟨[("c", ⟨[("user", "hi"), ("system", "note")], 3,
      ⟨"c", 1, 3,
        [⟨"user", "hi", 2, none, none, none, none, none, none⟩,
         ⟨"system", "note", 3, none, none, none, none, none, none⟩]⟩⟩)],
   dbSys⟩

/-- The empty store. -/
def storeEmpty : Store := ⟨[], ⟨[], []⟩⟩

/-! ## Claim C1 -/

/-- C1 counterexample: the claim says a handler failure inside
`executeCall` is converted into a Tool Result value with `error` set
and never re-raised, but on the tool `t` whose handler throws `boom`,
`executeCall` hands its caller the propagated exception
(`Except.error "boom"`) — no Tool Result value is returned — even
though the handler did run. -/
theorem executeCall_converts_handler_error_cex :
    (ToolRegistry.executeCall regThrow "t" "{}" 0).result = Except.error "boom" ∧
    (ToolRegistry.executeCall regThrow "t" "{}" 0).handlerInvoked = true :=
  ⟨rfl, rfl⟩

/-- C1 (amended): when a registered tool handler throws and the cache
yields no fresh hit, `executeCall` catches the exception only to log
it and then re-raises it unchanged to its caller, leaving the registry
(cache included) untouched; the conversion of the failure into a Tool
Result with `error` set is the job of the caller of `executeCall`, not
of `executeCall` itself. -/
theorem executeCall_handler_error_reraises {ρ : Type} (reg : Registry ρ)
    (name args : String) (now : Nat) (tool : ToolDef ρ) (e : String)
    (htool : alookup reg.tools name = some tool)
    (hmiss : alookup reg.cache (cacheKey name args) = none)
    (herr : tool.handler args = .error e) :
    ToolRegistry.executeCall reg name args now = ⟨.error e, true, reg⟩ := by
  unfold ToolRegistry.executeCall
  simp [htool, freshHit_cache_miss reg tool _ now hmiss, herr]

theorem executeCall_handler_error_reraises_witness :
    ToolRegistry.executeCall regThrow "t" "{}" 0
      = ⟨Except.error "boom", true, regThrow⟩ :=
  executeCall_handler_error_reraises regThrow "t" "{}" 0 toolThrow "boom" rfl rfl rfl

/-! ## Claim C2 -/

/-- C2: for a tool registered with a (truthy) `cache_ttl`, a first
`executeCall` on a cold cache invokes the handler; a second call with
the same name and argument object within the TTL returns the cached
result without invoking the handler; and a third call once the TTL has
elapsed invokes the handler again. -/
theorem executeCall_cache_within_ttl {ρ : Type} (reg : Registry ρ)
    (name args : String) (tool : ToolDef ρ) (ttl : Nat) (r : ρ) (t1 t2 t3 : Nat)
    (htool : alookup reg.tools name = some tool)
    (httl : tool.cache_ttl = some ttl) (hnz : ttl ≠ 0)
    (hmiss : alookup reg.cache (cacheKey name args) = none)
    (hok : tool.handler args = .ok r)
    (h2 : t2 - t1 < ttl) (h3 : ¬ (t3 - t1 < ttl)) :
    (ToolRegistry.executeCall reg name args t1).handlerInvoked = true ∧
    ToolRegistry.executeCall (ToolRegistry.executeCall reg name args t1).reg
        name args t2
      = ⟨.ok r, false, (ToolRegistry.executeCall reg name args t1).reg⟩ ∧
    (ToolRegistry.executeCall (ToolRegistry.executeCall reg name args t1).reg
        name args t3).handlerInvoked = true := by
  have hfirst : ToolRegistry.executeCall reg name args t1 =
      ⟨.ok r, true,
       { reg with cache := ainsert reg.cache (cacheKey name args) ⟨t1, r⟩ }⟩ := by
    unfold ToolRegistry.executeCall
    simp [htool, freshHit_cache_miss reg tool _ t1 hmiss, hok, httl, hnz]
  refine ⟨by rw [hfirst], ?_, ?_⟩
  · rw [hfirst]
    unfold ToolRegistry.executeCall
    simp [htool, freshHit, httl, hnz, alookup_ainsert_self, h2]
  · rw [hfirst]
    unfold ToolRegistry.executeCall
    simp [htool, freshHit, httl, hnz, alookup_ainsert_self, h3, hok]

theorem executeCall_cache_within_ttl_witness :
    (ToolRegistry.executeCall regCached "w" "{}" 0).handlerInvoked = true ∧
    ToolRegistry.executeCall (ToolRegistry.executeCall regCached "w" "{}" 0).reg
        "w" "{}" 50
      = ⟨.ok 42, false, (ToolRegistry.executeCall regCached "w" "{}" 0).reg⟩ ∧
    (ToolRegistry.executeCall (ToolRegistry.executeCall regCached "w" "{}" 0).reg
        "w" "{}" 100).handlerInvoked = true :=
  executeCall_cache_within_ttl regCached "w" "{}" toolCached 100 42 0 50 100
    rfl rfl (by decide) rfl rfl (by decide) (by decide)

/-! ## Claim C3 -/

/-- C3 counterexample: the claim says a second `register` with an
already-present name fails with a `DuplicateTool` error and leaves the
previous definition unchanged; on the registry already holding tool
`t` with description `first`, registering `t` again succeeds and the
stored description becomes `second`. -/
theorem register_duplicate_cex :
    ((ToolRegistry.register regOne "t" (some defSecond)).toOption.map
        (fun g => (alookup g.tools "t").map (fun d => d.description)))
      = some (some "second") ∧
    (alookup regOne.tools "t").map (fun d => d.description) = some "first" :=
  ⟨rfl, rfl⟩

/-- C3 (amended): `register` never checks for reuse: for every
registry and nonempty name, registering a definition succeeds (throwing
only when the name or definition is missing) and silently replaces any
previously registered definition under that name — the lookup
afterwards yields the new definition. -/
theorem register_replaces_silently {ρ : Type} (reg : Registry ρ) (name : String)
    (d : ToolDef ρ) (h : name ≠ "") :
    ToolRegistry.register reg name (some d)
      = .ok { reg with
          tools := ainsert reg.tools name { d with name := name },
          validators := ainsert reg.validators name d.schema } ∧
    alookup (ainsert reg.tools name { d with name := name }) name
      = some { d with name := name } := by
  constructor
  · unfold ToolRegistry.register
    simp [h]
  · exact alookup_ainsert_self reg.tools name { d with name := name }

theorem register_replaces_silently_witness :
    ToolRegistry.register regOne "t" (some defSecond)
      = .ok { regOne with
          tools := ainsert regOne.tools "t" { defSecond with name := "t" },
          validators := ainsert regOne.validators "t" defSecond.schema } ∧
    alookup (ainsert regOne.tools "t" { defSecond with name := "t" }) "t"
      = some { defSecond with name := "t" } :=
  register_replaces_silently regOne "t" defSecond (by decide)

/-! ## Claim C10 -/

/-- C10: the registry result cache only ever holds results of
successful handler invocations — an `executeCall` whose handler throws
leaves the whole registry state (cache included) unchanged, so an
immediately following identical call finds no cached entry and invokes
the handler again instead of returning a cached error. -/
theorem executeCall_error_leaves_cache {ρ : Type} (reg : Registry ρ)
    (name args : String) (t t2 : Nat) (tool : ToolDef ρ) (e : String)
    (htool : alookup reg.tools name = some tool)
    (hmiss : alookup reg.cache (cacheKey name args) = none)
    (herr : tool.handler args = .error e) :
    ToolRegistry.executeCall reg name args t = ⟨.error e, true, reg⟩ ∧
    (ToolRegistry.executeCall reg name args t2).handlerInvoked = true := by
  constructor
  · unfold ToolRegistry.executeCall
    simp [htool, freshHit_cache_miss reg tool _ t hmiss, herr]
  · unfold ToolRegistry.executeCall
    simp [htool, freshHit_cache_miss reg tool _ t2 hmiss, herr]

theorem executeCall_error_leaves_cache_witness :
    ToolRegistry.executeCall regThrowTtl "ws" "{}" 5
      = ⟨Except.error "boom", true, regThrowTtl⟩ ∧
    (ToolRegistry.executeCall regThrowTtl "ws" "{}" 6).handlerInvoked = true :=
  executeCall_error_leaves_cache regThrowTtl "ws" "{}" 5 6 toolThrowTtl "boom"
    rfl rfl rfl

/-! ## Claim C4 -/

/-- C4 counterexample: the claim says appending a message of any role
in user/assistant/system/tool to an existing conversation writes it to
persistent storage, but appending a tool-role message to conversation
`c` reports success while the messages table stays empty — the INSERT
is rejected by the role CHECK constraint and the failure is swallowed,
so the message survives only in the in-memory cache. -/
theorem appendMessage_tool_role_cex :
    (Store.appendMessage storeC "c" "tool" "results" noDetails 5 false).1 = true ∧
    ((Store.appendMessage storeC "c" "tool" "results" noDetails 5 false).2).db.messages
      = [] ∧
    (alookup ((Store.appendMessage storeC "c" "tool" "results" noDetails 5
        false).2).cache "c").map (fun cv => cv.messages)
      = some [("tool", "results")] := by
  decide

/-- C4 (amended): appending a message whose role is user, assistant or
system to a conversation present in persistent storage appends exactly
that message to the messages table; a tool-role message violates the
CHECK constraint of the table, so after a turn involving a tool call
the persisted history would lack the tool-role message. -/
theorem appendMessage_persists_allowed_roles (s : Store)
    (cid role content : String) (det : Details) (now : Nat)
    (hrole : role = "user" ∨ role = "assistant" ∨ role = "system")
    (hconv : s.db.hasConversation cid = true) :
    ((Store.appendMessage s cid role content det now false).2).db.messages
      = s.db.messages ++
        [⟨cid, role, content, now, det.model, det.provider, det.usage.getD 0⟩] := by
  rw [appendMessage_snd_db]
  have hallowed : role ∈ allowedRoles := by
    rcases hrole with h | h | h <;> simp [allowedRoles, h]
  have hadd : s.db.addMessage cid role content det now =
      .ok (Db.touchConversation
        { s.db with messages := s.db.messages ++
            [⟨cid, role, content, now, det.model, det.provider, det.usage.getD 0⟩] }
        cid now) := by
    unfold Db.addMessage
    simp [hallowed, hconv]
  simp [hadd, touchConversation_messages]

theorem appendMessage_persists_allowed_roles_witness :
    ((Store.appendMessage storeC "c" "user" "x" noDetails 5 false).2).db.messages
      = storeC.db.messages ++ [⟨"c", "user", "x", 5, none, none, 0⟩] :=
  appendMessage_persists_allowed_roles storeC "c" "user" "x" noDetails 5
    (Or.inl rfl) (by decide)

/-! ## Claim C5 -/

/-- C5 counterexample: the claim says a failing persistent-storage
write inside `appendMessage` is retried and ultimately surfaced to the
caller; instead, with the conversation cached and the database write
failing, `appendMessage` reports success (`true`), the database is
untouched, and only the in-memory cache receives the message. -/
theorem appendMessage_dbFailure_cex :
    (Store.appendMessage storeC "c" "user" "hi" noDetails 7 true).1 = true ∧
    ((Store.appendMessage storeC "c" "user" "hi" noDetails 7 true).2).db
      = storeC.db ∧
    (alookup ((Store.appendMessage storeC "c" "user" "hi" noDetails 7
        true).2).cache "c").map (fun cv => cv.messages)
      = some [("user", "hi")] := by
  decide

/-- C5 (amended): when the persistent-storage write inside
`appendMessage` fails, the store catches and only logs the error — it
makes no retry, leaves persistent storage unchanged, updates the
in-memory cache alone and reports success to its caller whenever the
conversation is cached. -/
theorem appendMessage_dbFailure_continues_cacheOnly (s : Store)
    (cid role content : String) (det : Details) (now : Nat)
    (hc : (alookup s.cache cid).isSome = true) :
    (Store.appendMessage s cid role content det now true).1 = true ∧
    ((Store.appendMessage s cid role content det now true).2).db = s.db := by
  obtain ⟨convo, hconvo⟩ := Option.isSome_iff_exists.mp hc
  constructor
  · unfold Store.appendMessage
    simp [hconvo]
  · rw [appendMessage_snd_db]
    simp

theorem appendMessage_dbFailure_continues_cacheOnly_witness :
    (Store.appendMessage storeC "c" "user" "hi" noDetails 7 true).1 = true ∧
    ((Store.appendMessage storeC "c" "user" "hi" noDetails 7 true).2).db
      = storeC.db :=
  appendMessage_dbFailure_continues_cacheOnly storeC "c" "user" "hi" noDetails 7
    (by decide)

/-! ## Claim C6 -/

/-- C6 counterexample: the claim says every refresh on a conversation
whose last message is not assistant-authored returns a 400; but on a
conversation whose last (and only) message is the user message `hi`,
the refresh handler proceeds to the streaming regeneration path (the
outcome is `proceed`, served as a 200 event stream) instead of
returning 400. -/
theorem refresh_user_last_cex :
    (refreshDecision storeUser (some "c") 10).1
      = RefreshOutcome.proceed [("user", "hi")] := by
  decide

/-- C6 (amended): a refresh on a conversation whose last message is
neither assistant-authored nor user-authored (for example a system
message) returns the 400 no-user-message error and leaves the store —
hence the stored message history — completely unchanged; when the last
message is user-authored the handler instead proceeds to regenerate. -/
theorem refresh_non_user_non_assistant_400 (s : Store) (cid : String)
    (now : Nat) (r c : String)
    (hlast : (Store.getMessages s cid).getLast? = some (r, c))
    (hra : r ≠ "assistant") (hru : r ≠ "user") :
    refreshDecision s (some cid) now
      = (.badRequest "No user message to refresh", s) := by
  have hba : (r == "assistant") = false := beq_eq_false_iff_ne.mpr hra
  have hbu : (r == "user") = false := beq_eq_false_iff_ne.mpr hru
  unfold refreshDecision
  simp [hlast, hba, hbu]

theorem refresh_non_user_non_assistant_400_witness :
    refreshDecision storeSys (some "c") 10
      = (RefreshOutcome.badRequest "No user message to refresh", storeSys) :=
  refresh_non_user_non_assistant_400 storeSys "c" 10 "system" "note" rfl
    (by decide) (by decide)

/-! ## Claim C7 -/

/-- C7 counterexample: the claim says deleting a nonexistent id returns
404 with the body saying Not found; the route does return 404, but its
body message is the different string Conversation not found. -/
theorem delete_notfound_body_cex :
    (deleteConversationRoute storeEmpty "z").1
      = (404, RouteBody.errorBody "Conversation not found") ∧
    "Conversation not found" ≠ "Not found" := by
  decide

/-- C7 (amended): deleting an id absent from the in-memory cache
returns 404 with the error body Conversation not found (any persistent
rows under that id are still removed), and a subsequent GET also
returns 404; deleting an id present in the cache reports success and
removes the conversation from both the cache and persistent storage. -/
theorem deleteRoute_behavior (s : Store) (cid : String) :
    (alookup s.cache cid = none →
      (deleteConversationRoute s cid).1
        = (404, .errorBody "Conversation not found") ∧
      getConversationRoute (deleteConversationRoute s cid).2 cid
        = (404, .errorBody "Conversation not found")) ∧
    ((alookup s.cache cid).isSome = true →
      (deleteConversationRoute s cid).1 = (200, .deleted cid) ∧
      alookup ((deleteConversationRoute s cid).2).cache cid = none ∧
      ((deleteConversationRoute s cid).2).db.hasConversation cid = false) := by
  constructor
  · intro h
    have hroute : deleteConversationRoute s cid
        = ((404, .errorBody "Conversation not found"),
           ⟨aremove s.cache cid, (s.db.deleteConversationById cid).2⟩) := by
      unfold deleteConversationRoute Store.delete
      simp [h]
    constructor
    · rw [hroute]
    · rw [hroute]
      unfold getConversationRoute Store.getConversation
      simp [alookup_aremove_self, Db.getStandardizedConversation,
        findConversation_delete]
  · intro h
    have hroute : deleteConversationRoute s cid
        = ((200, .deleted cid),
           ⟨aremove s.cache cid, (s.db.deleteConversationById cid).2⟩) := by
      unfold deleteConversationRoute Store.delete
      simp [h]
    refine ⟨by rw [hroute], ?_, ?_⟩
    · rw [hroute]
      exact alookup_aremove_self s.cache cid
    · rw [hroute]
      exact hasConversation_delete s.db cid

theorem deleteRoute_behavior_witness :
    ((deleteConversationRoute storeEmpty "z").1
        = (404, RouteBody.errorBody "Conversation not found") ∧
      getConversationRoute (deleteConversationRoute storeEmpty "z").2 "z"
        = (404, RouteBody.errorBody "Conversation not found")) ∧
    ((deleteConversationRoute storeC "c").1 = (200, RouteBody.deleted "c") ∧
      alookup ((deleteConversationRoute storeC "c").2).cache "c" = none ∧
      ((deleteConversationRoute storeC "c").2).db.hasConversation "c" = false) :=
  ⟨(deleteRoute_behavior storeEmpty "z").1 rfl,
   (deleteRoute_behavior storeC "c").2 rfl⟩

/-! ## Claim C8 -/

/-- C8 counterexample: the claim says every request to the streaming
chat endpoint gets HTTP status 200; a request whose message parameter
is missing (empty) is answered with a plain 400 before the stream
opens. -/
theorem stream_missing_message_cex :
    (chatStreamRoute storeEmpty "" none false "gpt-4o-mini" "n1" [] none 0).1.status
      = 400 := by
  decide

/-- C8 (amended): every request to the streaming chat endpoint whose
message parameter is non-empty is served with HTTP status 200, and a
provider failure during such a request is reported only as a terminal
error event on the event stream, never through the status code; a
request with a missing or empty message is rejected with a plain
400. -/
theorem streamRoute_status (s : Store) (message : String) (cid : Option String)
    (regen : Bool) (model freshId : String) (chunks : List String)
    (fail : Option String) (now : Nat) (hmsg : message ≠ "") :
    (chatStreamRoute s message cid regen model freshId chunks fail now).1.status
      = 200 ∧
    (∀ e, fail = some e →
      (chatStreamRoute s message cid regen model freshId chunks
          fail now).1.events.getLast?
        = some (SSEEvent.errorEv e)) := by
  constructor
  · unfold chatStreamRoute
    cases fail <;> simp [hmsg]
  · intro e he
    subst he
    unfold chatStreamRoute
    simp [hmsg]
    rw [← List.cons_append]
    exact List.getLast?_concat _

theorem streamRoute_status_witness :
    (chatStreamRoute storeC "hi" (some "c") false "gpt-4o-mini" "n1" ["He"]
        (some "ProviderError") 9).1.status = 200 ∧
    (chatStreamRoute storeC "hi" (some "c") false "gpt-4o-mini" "n1" ["He"]
        (some "ProviderError") 9).1.events.getLast?
      = some (SSEEvent.errorEv "ProviderError") :=
  ⟨(streamRoute_status storeC "hi" (some "c") false "gpt-4o-mini" "n1" ["He"]
      (some "ProviderError") 9 (by decide)).1,
   (streamRoute_status storeC "hi" (some "c") false "gpt-4o-mini" "n1" ["He"]
      (some "ProviderError") 9 (by decide)).2 "ProviderError" rfl⟩

/-! ## Claim C9 -/

/-- C9: the message list prepared for Gemini consists of the optional
system-prompt content followed by exactly the history entries whose
role is user or assistant, in order, mapped to Gemini contents with
assistant renamed to model — entries of any other role (system, tool)
are silently omitted; for OpenAI and for Grok the prepared list
forwards every history entry verbatim after the optional system
message. -/
theorem prepareMessages_gemini_filters (history : List (String × String))
    (sp : String) :
    prepareMessages history "gemini" sp
      = (if sp = "" then [] else [PMsg.gem "user" sp])
        ++ (history.filter (fun m => m.1 == "user" || m.1 == "assistant")).map
            (fun m => PMsg.gem (if m.1 == "assistant" then "model" else "user") m.2)
    ∧ prepareMessages history "openai" sp
      = (if sp = "" then [] else [PMsg.chat "system" sp])
        ++ history.map (fun m => PMsg.chat m.1 m.2)
    ∧ prepareMessages history "grok" sp
      = (if sp = "" then [] else [PMsg.chat "system" sp])
        ++ history.map (fun m => PMsg.chat m.1 m.2) := by
  refine ⟨?_, ?_, ?_⟩ <;> simp [prepareMessages]

end AIOverlay
